import Mathlib

/-!
# Verification flow controller of the OTP front end

A shallow embedding of `src/frontend/src/pages/VerifyOTP.jsx` (the code-entry
view) together with the part of `src/frontend/src/App.jsx` it calls back into.

React state (`useState`) becomes fields of one record, each handler becomes a
function on that record, and an `async` handler is split at its `await` into
the part that runs before the request is sent and the part that runs when the
response is delivered.
-/

namespace VerifyOTP

/-- A JavaScript string, as the sequence of its characters. JavaScript counts
and cuts a string by UTF-16 unit; a decimal digit is one unit, and so is every
character in front of the first character of a string that is not a digit, so
the tests and cuts below come out the same either way. -/
abbrev JSString := List Char

/-- The character class `[0-9]`. -/
def isDigit (c : Char) : Bool := decide (48 ≤ c.toNat ∧ c.toNat ≤ 57)

/-- The test `/^[0-9]$/.test(value)`: exactly one character, a digit. -/
def testSingleDigit : JSString → Bool
  | [c] => isDigit c
  | _ => false

/-- The test `/^[0-9]+$/.test(pastedData)`: one or more characters, all digits. -/
def testAllDigits (text : JSString) : Bool :=
  !text.isEmpty && text.all isDigit

/-- The three values of `currentStep` in `App`. -/
inductive Step where
  | request
  | verify
  | success
  deriving DecidableEq, Repr

/-- The object held in `otpData`: the challenge descriptor returned by the
server. `otp_code` is the echoed code of development mode, when present;
`others` stands for whatever further fields the object carries. -/
structure OtpData where
  otp_id : String
  expires_at : String
  otp_code : Option String
  others : List (String × String)
  deriving DecidableEq, Repr

/-- The object passed to `onSuccess` by a successful verification, with the
fields that `Success.jsx` reads. -/
structure UserData where
  email : Option String
  phone : Option String
  user_id : String
  timestamp : String
  deriving DecidableEq, Repr

/-- State of the code-entry view: the four `useState` cells of `VerifyOTP`, the
input that has focus, the `otpData` prop, the alerts shown so far, and the two
cells of `App` that `onSuccess` writes. -/
structure State where
  otp : List JSString
  loading : Bool
  error : String
  resending : Bool
  focus : Option Nat
  otpData : OtpData
  alerts : List String
  currentStep : Step
  userData : Option UserData
  deriving DecidableEq, Repr

/-- The array literal `['', '', '', '', '', '']`. -/
def emptyOtp : List JSString := [[], [], [], [], [], []]

/-- State of the view right after it is mounted for descriptor `d`
(`useState` initial values, then the mount effect focusing input 0). -/
def initialState (d : OtpData) : State :=
  { otp := emptyOtp, loading := false, error := "", resending := false,
    focus := some 0, otpData := d, alerts := [], currentStep := Step.verify,
    userData := none }

/-- The call `inputRefs.current[i]?.focus()`, made while the inputs rendered for
`rendered.otp` are on screen: one input exists per slot, so the optional call
does something exactly when `i` is the index of a rendered slot. -/
def focusInput (rendered : State) (i : Nat) (s : State) : State :=
  if i < rendered.otp.length then { s with focus := some i } else s

/-- The handler `handleChange(index, value)`. The array write
`newOtp[index] = value` is modelled for an index of a rendered slot, which is
how the inputs call it. -/
def handleChange (index : Nat) (value : JSString) (s : State) : State :=
  if !value.isEmpty && !testSingleDigit value then s
  else
    let newOtp := s.otp.set index value
    let s1 := { s with otp := newOtp, error := "" }
    if !value.isEmpty && decide (index < 5) then focusInput s (index + 1) s1
    else s1

/-- The handler `handleKeyDown(index, e)`, with `key` standing for `e.key`. -/
def handleKeyDown (index : Nat) (key : String) (s : State) : State :=
  if key = "Backspace" then
    if (s.otp.getD index []).isEmpty && decide (index > 0) then
      focusInput s (index - 1) s
    else s
  else if key = "ArrowLeft" ∧ index > 0 then focusInput s (index - 1) s
  else if key = "ArrowRight" ∧ index < 5 then focusInput s (index + 1) s
  else s

/-- The loop `while (newOtp.length < 6) newOtp.push('')`, run for at most
`fuel` iterations. -/
def padLoop : Nat → List JSString → List JSString
  | 0, newOtp => newOtp
  | fuel + 1, newOtp =>
    if newOtp.length < 6 then padLoop fuel (newOtp ++ [[]]) else newOtp

/-- The handler `handlePaste(e)`, with `text` standing for
`e.clipboardData.getData('text')`. Six iterations always finish the loop. -/
def handlePaste (text : JSString) (s : State) : State :=
  let pastedData := text.take 6
  if testAllDigits pastedData then
    let newOtp := padLoop 6 (pastedData.map fun c => [c])
    let lastIndex := min (pastedData.length - 1) 5
    focusInput s lastIndex { s with otp := newOtp }
  else s

/-- The body of the request posted to `/api/otp/verify`. -/
structure VerifyRequest where
  otp_id : String
  otp_code : JSString
  deriving DecidableEq, Repr

/-- How the verify request settles: the promise resolves with
`response.data.success` and `response.data.data`, or it rejects and
`err.response?.data?.message` is the given value, if any. -/
inductive VerifyResponse where
  | resolved (success : Bool) (data : UserData)
  | rejected (message : Option String)
  deriving DecidableEq, Repr

/-- The body of the request posted to `/api/otp/resend`. -/
structure ResendRequest where
  otp_id : String
  deriving DecidableEq, Repr

/-- How the resend request settles. -/
inductive ResendResponse where
  | resolved (success : Bool) (data : OtpData)
  | rejected (message : Option String)
  deriving DecidableEq, Repr

/-- The expression `message || fallback` for an optional string: an absent or
empty message is falsy. -/
def orElseMessage (message : Option String) (fallback : String) : String :=
  match message with
  | some m => if m = "" then fallback else m
  | none => fallback

/-- The callback `handleOTPVerified(data)` of `App`, passed as `onSuccess`. -/
def handleOTPVerified (data : UserData) (s : State) : State :=
  { s with userData := some data, currentStep := Step.success }

/-- The handler `handleSubmit(e)` up to its `await`: the new state and the
request that is sent, if one is. -/
def handleSubmitStart (s : State) : State × Option VerifyRequest :=
  let otpCode := s.otp.flatten
  if otpCode.length ≠ 6 then
    ({ s with error := "Please enter all 6 digits" }, none)
  else
    ({ s with error := "", loading := true },
      some { otp_id := s.otpData.otp_id, otp_code := otpCode })

/-- The handler `handleSubmit(e)` from its `await` on, run on the state `s` in
which the response arrives: the `try` continuation or the `catch` block, then
the `finally` block. -/
def handleSubmitSettle (r : VerifyResponse) (s : State) : State :=
  let s1 :=
    match r with
    | VerifyResponse.resolved success data =>
      if success then handleOTPVerified data s else s
    | VerifyResponse.rejected message =>
      focusInput s 0
        { s with error := orElseMessage message "Invalid OTP. Please try again.",
                 otp := emptyOtp }
  { s1 with loading := false }

/-- The handler `handleResend()` up to its `await`. -/
def handleResendStart (s : State) : State × ResendRequest :=
  ({ s with resending := true, error := "" }, { otp_id := s.otpData.otp_id })

/-- The handler `handleResend()` from its `await` on, run on the state `s` in
which the response arrives. -/
def handleResendSettle (r : ResendResponse) (s : State) : State :=
  let s1 :=
    match r with
    | ResendResponse.resolved success data =>
      if success then
        let held := { s.otpData with otp_id := data.otp_id, expires_at := data.expires_at }
        focusInput s 0
          { s with otpData := held,
                   alerts := s.alerts ++ ["OTP resent successfully!"],
                   otp := emptyOtp }
      else s
    | ResendResponse.rejected message =>
      { s with error := orElseMessage message "Failed to resend OTP." }
  { s1 with resending := false }

/-- The handler `handleSubmit(e)` run to its end with nothing happening in
between, against a server that answers the request `req` with `respond req`. -/
def handleSubmit (respond : VerifyRequest → VerifyResponse) (s : State) : State :=
  match handleSubmitStart s with
  | (s1, none) => s1
  | (s1, some req) => handleSubmitSettle (respond req) s1

/-- The handler `handleResend()` run to its end with nothing happening in
between, against a server that answers the request `req` with `respond req`. -/
def handleResend (respond : ResendRequest → ResendResponse) (s : State) : State :=
  match handleResendStart s with
  | (s1, req) => handleResendSettle (respond req) s1

/-- The `disabled` expression of the submit button,
`loading || otp.join('').length !== 6`. -/
def submitDisabled (s : State) : Bool :=
  s.loading || decide (s.otp.flatten.length ≠ 6)

/-- The events the view reacts to: user input on a rendered slot, the two
buttons, and the delivery of a response. -/
inductive Event where
  | change (index : Fin 6) (value : JSString)
  | keyDown (index : Fin 6) (key : String)
  | paste (text : JSString)
  | submit
  | verifyResponse (r : VerifyResponse)
  | resend
  | resendResponse (r : ResendResponse)
  deriving DecidableEq, Repr

/-- The state after one event. -/
def step (s : State) : Event → State
  | Event.change index value => handleChange index.val value s
  | Event.keyDown index key => handleKeyDown index.val key s
  | Event.paste text => handlePaste text s
  | Event.submit => (handleSubmitStart s).1
  | Event.verifyResponse r => handleSubmitSettle r s
  | Event.resend => (handleResendStart s).1
  | Event.resendResponse r => handleResendSettle r s

/-- The state after a sequence of events, oldest first. -/
def run (s : State) (events : List Event) : State :=
  events.foldl step s

/-- The states the view can be in: those some sequence of events leads to from
the initial state of some descriptor. -/
def Reachable (s : State) : Prop :=
  ∃ (d : OtpData) (events : List Event), run (initialState d) events = s

/-- The descriptor a resend returns in the examples. -/
def resentData : OtpData :=
  { otp_id := "B", expires_at := "t2", otp_code := none, others := [] }

/-- The identity snapshot a verification returns in the examples. -/
def sampleUser : UserData :=
  { email := some "user@example.com", phone := none, user_id := "u-1", timestamp := "t3" }

/-- A descriptor used in examples. -/
def sampleData : OtpData :=
  { otp_id := "A", expires_at := "t1", otp_code := none, others := [] }

/-- The shape the slots are meant to have: six of them, each empty or holding
one decimal digit. -/
def SlotsWellFormed (otp : List JSString) : Prop :=
  otp.length = 6 ∧ ∀ slot ∈ otp, slot = [] ∨ ∃ c, isDigit c = true ∧ slot = [c]

/-- A state reached by pasting six digits into the freshly mounted view. -/
def sixDigitsPasted : State :=
  run (initialState sampleData) [Event.paste "123456".toList]

/-- The state in which a verify request for `sixDigitsPasted` is under way, a
resend was started after it, and the resend has been confirmed. -/
def resendConfirmedDuringVerify : State :=
  handleResendSettle (ResendResponse.resolved true resentData)
    (handleResendStart (handleSubmitStart sixDigitsPasted).1).1

/-- The state reached by pasting six digits and then pressing resend. -/
def resendPendingWithSixDigits : State :=
  run (initialState sampleData) [Event.paste "123456".toList, Event.resend]

/-- The development display of the code-entry view,
`otpData.otp_code && (... {otpData.otp_code} ...)`: the code that is shown, if
one is. -/
def displayedOtpCode (s : State) : Option String :=
  match s.otpData.otp_code with
  | some code => if code = "" then none else some code
  | none => none

/-- A descriptor of development mode, echoing the code of its challenge. -/
def devData : OtpData :=
  { otp_id := "A", expires_at := "t1", otp_code := some "123456", others := [] }

/-- The descriptor a resend returns in development mode, echoing the new code. -/
def devResentData : OtpData :=
  { otp_id := "B", expires_at := "t2", otp_code := some "654321", others := [] }

end VerifyOTP

/-!
# Request form

The part of `src/frontend/src/pages/RequestOTP.jsx` that decides whether a
create request is sent: the constraints on the rendered input, which the
browser checks before it calls `onSubmit`, and `handleSubmit` up to its `await`.
-/

namespace RequestOTP

open VerifyOTP (JSString isDigit)

/-- The two values of `method`. -/
inductive Method where
  | email
  | phone
  deriving DecidableEq, Repr

/-- The object held in `formData`. -/
structure FormData where
  email : JSString
  phone : JSString
  deriving DecidableEq, Repr

/-- State of the request form: its four `useState` cells. -/
structure State where
  formData : FormData
  loading : Bool
  error : String
  method : Method
  deriving DecidableEq, Repr

/-- The part `[0-9]{10,15}` of the pattern, matched against all of `text`. -/
def matchDigits (text : JSString) : Bool :=
  text.all isDigit && decide (10 ≤ text.length) && decide (text.length ≤ 15)

/-- The attribute `pattern="[+]?[0-9]{10,15}"` of the phone input. The browser
matches the whole value against it; `[+]?` matches no character or one '+'. -/
def phonePattern (value : JSString) : Bool :=
  matchDigits value ||
    (match value with
     | '+' :: rest => matchDigits rest
     | _ => false)

/-- Constraint validation of the phone input: `required` and `pattern`. -/
def phoneInputValid (value : JSString) : Bool :=
  !value.isEmpty && phonePattern value

/-- Constraint validation of the email input: `required` and `type="email"`.
The check a browser makes for the type is not code of the repository and is
taken as the parameter `emailTypeValid`. -/
def emailInputValid (emailTypeValid : JSString → Bool) (value : JSString) : Bool :=
  !value.isEmpty && emailTypeValid value

/-- Validity of the form: that of the one input which is rendered for the
current method. -/
def formValid (emailTypeValid : JSString → Bool) (s : State) : Bool :=
  match s.method with
  | Method.email => emailInputValid emailTypeValid s.formData.email
  | Method.phone => phoneInputValid s.formData.phone

/-- The body of the request posted to `/api/otp/generate`. -/
inductive Payload where
  | email (email : JSString)
  | phone (phone : JSString)
  deriving DecidableEq, Repr

/-- The handler `handleSubmit(e)` up to its `await`: the new state and the
payload that is sent. -/
def handleSubmitStart (s : State) : State × Payload :=
  ({ s with error := "", loading := true },
    match s.method with
    | Method.email => Payload.email s.formData.email
    | Method.phone => Payload.phone s.formData.phone)

/-- A press of the submit button. The button is disabled while `loading`; the
form has no `noValidate`, so the browser checks the rendered input and calls
`onSubmit` only when it is valid. The result is the new state and the create
request that is sent, if one is. -/
def submitForm (emailTypeValid : JSString → Bool) (s : State) : State × Option Payload :=
  if s.loading then (s, none)
  else if formValid emailTypeValid s then
    ((handleSubmitStart s).1, some (handleSubmitStart s).2)
  else (s, none)

/-- The phone form with `phone` typed in and no request under way. -/
def phoneForm (phone : JSString) : State :=
  { formData := { email := [], phone := phone }, loading := false, error := "",
    method := Method.phone }

end RequestOTP

namespace VerifyOTP

/-! ## Shared lemmas -/

theorem padLoop_eq (fuel : Nat) (xs : List JSString) (h : 6 - xs.length ≤ fuel) :
    padLoop fuel xs = xs ++ List.replicate (6 - xs.length) [] := by
  induction fuel generalizing xs with
  | zero =>
    have h0 : 6 - xs.length = 0 := by omega
    simp [padLoop, h0]
  | succ n ih =>
    unfold padLoop
    by_cases hlt : xs.length < 6
    · have hstep : 6 - (xs ++ [([] : JSString)]).length ≤ n := by
        simp only [List.length_append, List.length_singleton]; omega
      rw [if_pos hlt, ih _ hstep]
      have hk : 6 - xs.length = (6 - (xs ++ [([] : JSString)]).length) + 1 := by
        simp only [List.length_append, List.length_singleton]; omega
      rw [hk, List.replicate_succ]
      simp
    · have h0 : 6 - xs.length = 0 := by omega
      rw [if_neg hlt, h0]
      simp

theorem testAllDigits_iff (text : JSString) :
    testAllDigits text = true ↔ text ≠ [] ∧ ∀ c ∈ text, isDigit c = true := by
  cases text <;> simp [testAllDigits]

theorem handlePaste_otp_of_test (text : JSString) (s : State)
    (h : testAllDigits (text.take 6) = true) :
    (handlePaste text s).otp
      = (text.take 6).map (fun c => [c]) ++ List.replicate (6 - min 6 text.length) [] := by
  have hp : padLoop 6 ((text.take 6).map fun c => [c])
      = (text.take 6).map (fun c => [c]) ++ List.replicate (6 - min 6 text.length) [] := by
    rw [padLoop_eq 6 _ (by omega)]
    simp
  unfold handlePaste focusInput
  simp only [h, if_true]
  split <;> exact hp

theorem testSingleDigit_iff (value : JSString) :
    testSingleDigit value = true ↔ ∃ c, isDigit c = true ∧ value = [c] := by
  match value with
  | [] => simp [testSingleDigit]
  | [c] => simp [testSingleDigit]
  | _ :: _ :: _ => simp [testSingleDigit]

theorem focusInput_otp (r : State) (i : Nat) (s : State) : (focusInput r i s).otp = s.otp := by
  unfold focusInput
  split <;> rfl

theorem emptyOtp_wellFormed : SlotsWellFormed emptyOtp := by
  refine ⟨rfl, fun slot h => Or.inl ?_⟩
  simp [emptyOtp] at h
  exact h

theorem handleChange_wellFormed (index : Nat) (value : JSString) (s : State)
    (h : SlotsWellFormed s.otp) : SlotsWellFormed (handleChange index value s).otp := by
  unfold handleChange
  by_cases hrej : (!value.isEmpty && !testSingleDigit value) = true
  · rw [if_pos hrej]; exact h
  · rw [if_neg hrej]
    have hval : value = [] ∨ ∃ c, isDigit c = true ∧ value = [c] := by
      cases value with
      | nil => exact Or.inl rfl
      | cons a t =>
        right
        apply (testSingleDigit_iff _).1
        simpa using hrej
    have hset : SlotsWellFormed (s.otp.set index value) := by
      refine ⟨by rw [List.length_set]; exact h.1, fun slot hm => ?_⟩
      rcases List.mem_or_eq_of_mem_set hm with hm | rfl
      · exact h.2 slot hm
      · exact hval
    dsimp only
    split
    · rw [focusInput_otp]; exact hset
    · exact hset

theorem handleKeyDown_otp (index : Nat) (key : String) (s : State) :
    (handleKeyDown index key s).otp = s.otp := by
  unfold handleKeyDown
  repeat' split
  all_goals first | rfl | exact focusInput_otp _ _ _

theorem handlePaste_wellFormed (text : JSString) (s : State)
    (h : SlotsWellFormed s.otp) : SlotsWellFormed (handlePaste text s).otp := by
  cases ht : testAllDigits (text.take 6) with
  | false =>
    have : handlePaste text s = s := by simp [handlePaste, ht]
    rw [this]; exact h
  | true =>
    rw [handlePaste_otp_of_test text s ht]
    refine ⟨?_, fun slot hm => ?_⟩
    · simp only [List.length_append, List.length_map, List.length_take, List.length_replicate]
      omega
    · rcases List.mem_append.1 hm with hm | hm
      · obtain ⟨c, hc, rfl⟩ := List.mem_map.1 hm
        exact Or.inr ⟨c, ((testAllDigits_iff _).1 ht).2 c hc, rfl⟩
      · exact Or.inl (List.eq_of_mem_replicate hm)

theorem handleSubmitStart_otp (s : State) : (handleSubmitStart s).1.otp = s.otp := by
  unfold handleSubmitStart
  dsimp only
  split <;> rfl

theorem handleSubmitSettle_wellFormed (r : VerifyResponse) (s : State)
    (h : SlotsWellFormed s.otp) : SlotsWellFormed (handleSubmitSettle r s).otp := by
  cases r with
  | resolved success data =>
    cases success <;> exact h
  | rejected message =>
    show SlotsWellFormed (focusInput s 0 _).otp
    rw [focusInput_otp]
    exact emptyOtp_wellFormed

theorem handleResendSettle_wellFormed (r : ResendResponse) (s : State)
    (h : SlotsWellFormed s.otp) : SlotsWellFormed (handleResendSettle r s).otp := by
  cases r with
  | resolved success data =>
    cases success with
    | false => exact h
    | true =>
      show SlotsWellFormed (focusInput s 0 _).otp
      rw [focusInput_otp]
      exact emptyOtp_wellFormed
  | rejected message => exact h

theorem step_wellFormed (s : State) (e : Event) (h : SlotsWellFormed s.otp) :
    SlotsWellFormed (step s e).otp := by
  cases e with
  | change index value => exact handleChange_wellFormed _ _ _ h
  | keyDown index key =>
    show SlotsWellFormed (handleKeyDown _ _ _).otp
    rw [handleKeyDown_otp]; exact h
  | paste text => exact handlePaste_wellFormed _ _ h
  | submit =>
    show SlotsWellFormed (handleSubmitStart s).1.otp
    rw [handleSubmitStart_otp]; exact h
  | verifyResponse r => exact handleSubmitSettle_wellFormed _ _ h
  | resend => exact h
  | resendResponse r => exact handleResendSettle_wellFormed _ _ h

theorem run_wellFormed (events : List Event) (s : State) (h : SlotsWellFormed s.otp) :
    SlotsWellFormed (run s events).otp := by
  induction events generalizing s with
  | nil => exact h
  | cons e es ih => exact ih (step s e) (step_wellFormed s e h)

theorem reachable_wellFormed (s : State) (h : Reachable s) : SlotsWellFormed s.otp := by
  obtain ⟨d, events, rfl⟩ := h
  exact run_wellFormed events _ emptyOtp_wellFormed

theorem flatten_length_le (l : List JSString) (h : ∀ x ∈ l, x.length ≤ 1) :
    l.flatten.length ≤ l.length := by
  induction l with
  | nil => simp
  | cons a t ih =>
    have ha := h a (List.mem_cons_self a t)
    have ht := ih (fun x hx => h x (List.mem_cons_of_mem a hx))
    simp only [List.flatten_cons, List.length_append, List.length_cons]
    omega

theorem flatten_length_eq_iff (l : List JSString) (h : ∀ x ∈ l, x.length ≤ 1) :
    l.flatten.length = l.length ↔ ∀ x ∈ l, x.length = 1 := by
  induction l with
  | nil => simp
  | cons a t ih =>
    have ha := h a (List.mem_cons_self a t)
    have hle := flatten_length_le t (fun x hx => h x (List.mem_cons_of_mem a hx))
    have iht := ih (fun x hx => h x (List.mem_cons_of_mem a hx))
    simp only [List.flatten_cons, List.length_append, List.length_cons, List.mem_cons,
      forall_eq_or_imp]
    constructor
    · intro heq
      exact ⟨by omega, iht.1 (by omega)⟩
    · rintro ⟨h1, h2⟩
      have := iht.2 h2
      omega

theorem handleResendSettle_success (s : State) (data : OtpData) (h0 : 0 < s.otp.length) :
    handleResendSettle (ResendResponse.resolved true data) s
      = { s with otpData := { s.otpData with otp_id := data.otp_id,
                                             expires_at := data.expires_at },
                 alerts := s.alerts ++ ["OTP resent successfully!"],
                 otp := emptyOtp, focus := some 0, resending := false } := by
  simp [handleResendSettle, focusInput, h0]

theorem handleSubmitSettle_rejected (s : State) (message : Option String)
    (h0 : 0 < s.otp.length) :
    handleSubmitSettle (VerifyResponse.rejected message) s
      = { s with error := orElseMessage message "Invalid OTP. Please try again.",
                 otp := emptyOtp, focus := some 0, loading := false } := by
  simp [handleSubmitSettle, focusInput, h0]

/-! ## Paste -/

/-- C1, as amended: a pasted text with a character that is not a decimal digit
among its first six characters is rejected, and the whole state, the six slots
included, is what it was. -/
theorem handlePaste_rejects_nondigit_in_first_six (text : JSString) (s : State)
    (h : ∃ c ∈ text.take 6, isDigit c = false) :
    handlePaste text s = s := by
  obtain ⟨c, hc, hd⟩ := h
  have ht : testAllDigits (text.take 6) = false := by
    cases hb : testAllDigits (text.take 6) with
    | false => rfl
    | true =>
      have := ((testAllDigits_iff _).1 hb).2 c hc
      rw [hd] at this
      exact absurd this (by decide)
  simp [handlePaste, ht]

/-- C1, witness: pasting "12ab56" into six empty slots leaves them empty. -/
theorem handlePaste_rejects_nondigit_in_first_six_witness :
    (∃ c ∈ "12ab56".toList.take 6, isDigit c = false)
      ∧ handlePaste "12ab56".toList (initialState sampleData) = initialState sampleData
      ∧ (initialState sampleData).otp = [[], [], [], [], [], []] :=
  have h : ∃ c ∈ "12ab56".toList.take 6, isDigit c = false := ⟨'a', by decide, by decide⟩
  ⟨h, handlePaste_rejects_nondigit_in_first_six _ _ h, rfl⟩

/-- C1, counterexample: "123456a" contains a character that is not a digit, yet
pasting it into six empty slots fills all six of them. -/
theorem handlePaste_fills_despite_late_nondigit :
    (∃ c ∈ "123456a".toList, isDigit c = false)
      ∧ (initialState sampleData).otp = [[], [], [], [], [], []]
      ∧ (handlePaste "123456a".toList (initialState sampleData)).otp
          = [['1'], ['2'], ['3'], ['4'], ['5'], ['6']] :=
  ⟨⟨'a', by decide, by decide⟩, rfl, by decide⟩

/-- C2: a non-empty pasted text of decimal digits puts its first `min 6 length`
characters, one per slot and in order from slot 0, followed by empty slots; the
result has six slots and is the same whatever the state before. -/
theorem handlePaste_fills_from_slot_zero (text : JSString) (s : State)
    (hne : text ≠ []) (hd : ∀ c ∈ text, isDigit c = true) :
    (handlePaste text s).otp
        = (text.take (min 6 text.length)).map (fun c => [c])
            ++ List.replicate (6 - min 6 text.length) []
      ∧ (handlePaste text s).otp.length = 6
      ∧ (∀ i, i < 6 → (handlePaste text s).otp[i]?
            = some (match text[i]? with | some c => [c] | none => []))
      ∧ ∀ s0 : State, (handlePaste text s0).otp = (handlePaste text s).otp := by
  have ht : testAllDigits (text.take 6) = true := by
    rw [testAllDigits_iff]
    refine ⟨?_, fun c hc => hd c (List.mem_of_mem_take hc)⟩
    cases text with
    | nil => exact absurd rfl hne
    | cons a t => simp
  have htake : text.take (min 6 text.length) = text.take 6 := by
    rcases Nat.le_total 6 text.length with h | h
    · rw [Nat.min_eq_left h]
    · rw [Nat.min_eq_right h, List.take_length, List.take_of_length_le h]
  have hotp := handlePaste_otp_of_test text s ht
  refine ⟨by rw [htake]; exact hotp, ?_, ?_, fun s0 => ?_⟩
  · rw [hotp]
    simp only [List.length_append, List.length_map, List.length_take, List.length_replicate]
    omega
  · intro i hi
    rw [hotp]
    by_cases hlt : i < text.length
    · have h1 : i < ((text.take 6).map fun c => [c]).length := by
        simp only [List.length_map, List.length_take]; omega
      rw [List.getElem?_append_left h1, List.getElem?_map, List.getElem?_take_of_lt hi,
        List.getElem?_eq_getElem hlt]
      rfl
    · have h1 : ((text.take 6).map fun c => [c]).length ≤ i := by
        simp only [List.length_map, List.length_take]; omega
      have hnone : text[i]? = none := List.getElem?_eq_none (by omega)
      rw [List.getElem?_append_right h1, hnone, List.getElem?_replicate]
      simp only [List.length_map, List.length_take]
      rw [if_pos (by omega)]
  · rw [hotp, handlePaste_otp_of_test text s0 ht]

/-- C2, witness: pasting "123" over six filled slots. -/
theorem handlePaste_fills_from_slot_zero_witness :
    "123".toList ≠ [] ∧ (∀ c ∈ "123".toList, isDigit c = true)
      ∧ (handlePaste "123".toList
            { initialState sampleData with
              otp := [['9'], ['9'], ['9'], ['9'], ['9'], ['9']] }).otp
          = [['1'], ['2'], ['3'], [], [], []] :=
  have h1 : "123".toList ≠ [] := by decide
  have h2 : ∀ c ∈ "123".toList, isDigit c = true := by decide
  ⟨h1, h2, (handlePaste_fills_from_slot_zero "123".toList
    { initialState sampleData with otp := [['9'], ['9'], ['9'], ['9'], ['9'], ['9']] }
    h1 h2).1⟩

/-! ## Enabling of the submit control -/

/-- C3: in every state reachable from the initial six empty slots by change,
key, paste, submit and resend events and the delivery of their responses, the
submit control is enabled only if there are six slots, none of them empty; and
the test `otp.join('').length === 6` holds exactly when each of the six slots
holds one decimal digit. -/
theorem submit_enabled_only_with_six_filled_slots (s : State) (h : Reachable s) :
    (submitDisabled s = false → s.otp.length = 6 ∧ ∀ slot ∈ s.otp, slot ≠ [])
      ∧ (s.otp.flatten.length = 6 ↔
          s.otp.length = 6 ∧ ∀ slot ∈ s.otp, ∃ c, isDigit c = true ∧ slot = [c]) := by
  obtain ⟨hlen, hslots⟩ := reachable_wellFormed s h
  have hle : ∀ x ∈ s.otp, x.length ≤ 1 := by
    intro x hx
    rcases hslots x hx with rfl | ⟨c, _, rfl⟩ <;> simp
  have hiff := flatten_length_eq_iff s.otp hle
  rw [hlen] at hiff
  have hdigits : s.otp.flatten.length = 6 →
      ∀ slot ∈ s.otp, ∃ c, isDigit c = true ∧ slot = [c] := by
    intro h6 slot hm
    have h1 := hiff.1 h6 slot hm
    rcases hslots slot hm with rfl | hc
    · simp at h1
    · exact hc
  refine ⟨fun hen => ?_, fun h6 => ⟨hlen, hdigits h6⟩, fun hall => hiff.2 fun slot hm => ?_⟩
  · have h6 : s.otp.flatten.length = 6 := by
      simp only [submitDisabled, Bool.or_eq_false_iff, decide_eq_false_iff_not, not_not] at hen
      exact hen.2
    refine ⟨hlen, fun slot hm hempty => ?_⟩
    obtain ⟨c, _, hc⟩ := hdigits h6 slot hm
    rw [hempty] at hc
    exact List.noConfusion hc
  · obtain ⟨c, _, rfl⟩ := hall.2 slot hm
    rfl

/-- C3, witness: after pasting "123456" the control is enabled and all six
slots are filled. -/
theorem submit_enabled_only_with_six_filled_slots_witness :
    Reachable sixDigitsPasted ∧ submitDisabled sixDigitsPasted = false
      ∧ sixDigitsPasted.otp.length = 6 ∧ ∀ slot ∈ sixDigitsPasted.otp, slot ≠ [] :=
  have hr : Reachable sixDigitsPasted := ⟨sampleData, [Event.paste "123456".toList], rfl⟩
  have he : submitDisabled sixDigitsPasted = false := by decide
  ⟨hr, he, (submit_enabled_only_with_six_filled_slots sixDigitsPasted hr).1 he⟩

/-! ## Submitting -/

/-- C4: when the joined code does not have length 6, `handleSubmit` sets the
error to 'Please enter all 6 digits', sends no request, and ends there whatever
the server would answer: nothing but the error changes, so the slots and the
loading flag are what they were. -/
theorem handleSubmit_short_code_stays_local (s : State) (h : s.otp.flatten.length ≠ 6) :
    (handleSubmitStart s).2 = none
      ∧ (∀ respond, handleSubmit respond s = { s with error := "Please enter all 6 digits" })
      ∧ (∀ respond, (handleSubmit respond s).otp = s.otp)
      ∧ (∀ respond, (handleSubmit respond s).loading = s.loading) := by
  have hs : handleSubmitStart s = ({ s with error := "Please enter all 6 digits" }, none) := by
    unfold handleSubmitStart
    exact if_pos h
  have hw : ∀ respond, handleSubmit respond s = { s with error := "Please enter all 6 digits" } := by
    intro respond
    unfold handleSubmit
    rw [hs]
  refine ⟨by rw [hs], hw, fun r => by rw [hw r], fun r => by rw [hw r]⟩

/-- C4, witness: submitting with three digits entered, against a server that
would accept. -/
theorem handleSubmit_short_code_stays_local_witness :
    (handlePaste "123".toList (initialState sampleData)).otp.flatten.length ≠ 6
      ∧ (handleSubmitStart (handlePaste "123".toList (initialState sampleData))).2 = none
      ∧ (handleSubmit (fun _ => VerifyResponse.resolved true sampleUser)
            (handlePaste "123".toList (initialState sampleData))).error
          = "Please enter all 6 digits"
      ∧ (handleSubmit (fun _ => VerifyResponse.resolved true sampleUser)
            (handlePaste "123".toList (initialState sampleData))).currentStep = Step.verify :=
  have h : (handlePaste "123".toList (initialState sampleData)).otp.flatten.length ≠ 6 := by
    decide
  have t := handleSubmit_short_code_stays_local _ h
  ⟨h, t.1, by rw [t.2.1], by rw [t.2.1]; rfl⟩

/-- C5, counterexample: a verify request is sent with id "A", a resend is then
confirmed and the held id becomes "B", and the accepted verify response that
arrives afterwards moves the flow to the success state. -/
theorem stale_accepted_response_reaches_success :
    (handleSubmitStart sixDigitsPasted).2
        = some { otp_id := "A", otp_code := "123456".toList }
      ∧ resendConfirmedDuringVerify.otpData.otp_id = "B"
      ∧ resendConfirmedDuringVerify.currentStep = Step.verify
      ∧ (handleSubmitSettle (VerifyResponse.resolved true sampleUser)
            resendConfirmedDuringVerify).currentStep = Step.success
      ∧ handleSubmitSettle (VerifyResponse.resolved true sampleUser)
            resendConfirmedDuringVerify ≠ resendConfirmedDuringVerify := by
  decide

/-- C5, as amended: a verify request is sent with the held id, a resend is then
confirmed with a different id, and the accepted verify response that arrives
afterwards is applied without any comparison of ids: the flow moves to the
success state with the data of the response, and the loading flag is cleared.
The same holds in whatever state an accepted response arrives. -/
theorem accepted_response_applied_without_id_check (s : State) (resent : OtpData)
    (user : UserData) (hfull : s.otp.flatten.length = 6)
    (hne : resent.otp_id ≠ s.otpData.otp_id) :
    (handleSubmitStart s).2 = some { otp_id := s.otpData.otp_id, otp_code := s.otp.flatten }
      ∧ (handleResendSettle (ResendResponse.resolved true resent)
            (handleResendStart (handleSubmitStart s).1).1).otpData.otp_id ≠ s.otpData.otp_id
      ∧ (handleSubmitSettle (VerifyResponse.resolved true user)
            (handleResendSettle (ResendResponse.resolved true resent)
              (handleResendStart (handleSubmitStart s).1).1)).currentStep = Step.success
      ∧ (handleSubmitSettle (VerifyResponse.resolved true user)
            (handleResendSettle (ResendResponse.resolved true resent)
              (handleResendStart (handleSubmitStart s).1).1)).userData = some user
      ∧ ∀ t : State,
          handleSubmitSettle (VerifyResponse.resolved true user) t
            = { t with userData := some user, currentStep := Step.success, loading := false } := by
  have hs : handleSubmitStart s
      = ({ s with error := "", loading := true },
          some { otp_id := s.otpData.otp_id, otp_code := s.otp.flatten }) := by
    unfold handleSubmitStart
    exact if_neg (not_not.2 hfull)
  have hid : (handleResendSettle (ResendResponse.resolved true resent)
      (handleResendStart (handleSubmitStart s).1).1).otpData.otp_id = resent.otp_id := by
    simp only [handleResendSettle, handleResendStart, focusInput, if_true]
    split <;> rfl
  refine ⟨by rw [hs], by rw [hid]; exact hne, rfl, rfl, fun t => rfl⟩

/-- C5, witness: the race of the counterexample, as an instance of the amended
claim. -/
theorem accepted_response_applied_without_id_check_witness :
    sixDigitsPasted.otp.flatten.length = 6
      ∧ resentData.otp_id ≠ sixDigitsPasted.otpData.otp_id
      ∧ (handleSubmitSettle (VerifyResponse.resolved true sampleUser)
            (handleResendSettle (ResendResponse.resolved true resentData)
              (handleResendStart (handleSubmitStart sixDigitsPasted).1).1)).currentStep
          = Step.success :=
  have h1 : sixDigitsPasted.otp.flatten.length = 6 := by decide
  have h2 : resentData.otp_id ≠ sixDigitsPasted.otpData.otp_id := by decide
  ⟨h1, h2, (accepted_response_applied_without_id_check sixDigitsPasted resentData sampleUser
    h1 h2).2.2.1⟩

/-- C6, counterexample: with six digits entered and a resend pending, the submit
control is enabled, and submitting sends a request with the id held so far. -/
theorem submit_enabled_while_resend_pending :
    Reachable resendPendingWithSixDigits
      ∧ resendPendingWithSixDigits.resending = true
      ∧ submitDisabled resendPendingWithSixDigits = false
      ∧ (handleSubmitStart resendPendingWithSixDigits).2
          = some { otp_id := "A", otp_code := "123456".toList } :=
  ⟨⟨sampleData, [Event.paste "123456".toList, Event.resend], rfl⟩, by decide, by decide,
    by decide⟩

/-- C6, as amended: in a state in which a resend is pending, submission is
disabled exactly when the loading flag is set or the joined code does not have
length 6; the resending flag has no part in it. -/
theorem submit_disabled_ignores_resending (s : State) :
    (submitDisabled { s with resending := true } = true ↔
        s.loading = true ∨ s.otp.flatten.length ≠ 6)
      ∧ submitDisabled { s with resending := true }
          = submitDisabled { s with resending := false } := by
  refine ⟨?_, rfl⟩
  simp [submitDisabled]

/-! ## Resend and failed verification -/

/-- C7: when the resend request is answered with success, in a state with six
slots, `handleResend` ends with the held descriptor carrying the id and the
expiry of the response, six empty slots whatever they held, focus on slot 0
and the resending flag false. -/
theorem handleResend_success_swaps_descriptor_and_clears (s : State) (data : OtpData)
    (respond : ResendRequest → ResendResponse) (h6 : s.otp.length = 6)
    (hr : respond { otp_id := s.otpData.otp_id } = ResendResponse.resolved true data) :
    (handleResend respond s).otpData.otp_id = data.otp_id
      ∧ (handleResend respond s).otpData.expires_at = data.expires_at
      ∧ (handleResend respond s).otp = [[], [], [], [], [], []]
      ∧ (handleResend respond s).focus = some 0
      ∧ (handleResend respond s).resending = false := by
  have hw : handleResend respond s
      = handleResendSettle (ResendResponse.resolved true data)
          { s with resending := true, error := "" } := by
    unfold handleResend handleResendStart
    simp only [hr]
  rw [hw, handleResendSettle_success _ data (by show 0 < s.otp.length; omega)]
  exact ⟨rfl, rfl, rfl, rfl, rfl⟩

/-- C7, witness: a resend with six digits entered, answered with the
descriptor "B". -/
theorem handleResend_success_swaps_descriptor_and_clears_witness :
    sixDigitsPasted.otp = [['1'], ['2'], ['3'], ['4'], ['5'], ['6']]
      ∧ sixDigitsPasted.otpData.otp_id = "A"
      ∧ (handleResend (fun _ => ResendResponse.resolved true resentData)
            sixDigitsPasted).otpData.otp_id = "B"
      ∧ (handleResend (fun _ => ResendResponse.resolved true resentData)
            sixDigitsPasted).otp = [[], [], [], [], [], []] :=
  have t := handleResend_success_swaps_descriptor_and_clears sixDigitsPasted resentData
    (fun _ => ResendResponse.resolved true resentData) (by decide) rfl
  ⟨by decide, by decide, t.1, t.2.2.1⟩

/-- C8: when the verify request of a complete submission fails, `handleSubmit`
ends with six empty slots, focus on slot 0, the error set to the message of the
response when it carries a non-empty one and to 'Invalid OTP. Please try again.'
when the message is absent or empty, the loading flag false, and the step and
the user data of the application untouched. -/
theorem handleSubmit_failure_clears_and_reports (s : State) (message : Option String)
    (respond : VerifyRequest → VerifyResponse)
    (h6 : s.otp.length = 6) (hfull : s.otp.flatten.length = 6)
    (hr : respond { otp_id := s.otpData.otp_id, otp_code := s.otp.flatten }
        = VerifyResponse.rejected message) :
    (handleSubmitStart s).2 = some { otp_id := s.otpData.otp_id, otp_code := s.otp.flatten }
      ∧ (handleSubmit respond s).otp = [[], [], [], [], [], []]
      ∧ (handleSubmit respond s).focus = some 0
      ∧ (∀ m, message = some m → m ≠ "" → (handleSubmit respond s).error = m)
      ∧ (message = none ∨ message = some "" →
          (handleSubmit respond s).error = "Invalid OTP. Please try again.")
      ∧ (handleSubmit respond s).loading = false
      ∧ (handleSubmit respond s).currentStep = s.currentStep
      ∧ (handleSubmit respond s).userData = s.userData := by
  have hs : handleSubmitStart s
      = ({ s with error := "", loading := true },
          some { otp_id := s.otpData.otp_id, otp_code := s.otp.flatten }) := by
    unfold handleSubmitStart
    exact if_neg (not_not.2 hfull)
  have hw : handleSubmit respond s
      = handleSubmitSettle (VerifyResponse.rejected message)
          { s with error := "", loading := true } := by
    unfold handleSubmit
    rw [hs]
    simp only [hr]
  rw [hw, hs, handleSubmitSettle_rejected _ message (by show 0 < s.otp.length; omega)]
  refine ⟨rfl, rfl, rfl, ?_, ?_, rfl, rfl, rfl⟩
  · rintro m rfl hm
    simp [orElseMessage, hm]
  · rintro (rfl | rfl) <;> rfl

/-- C8, witness: a wrong code answered with a message of the server. -/
theorem handleSubmit_failure_clears_and_reports_witness :
    sixDigitsPasted.otp.length = 6 ∧ sixDigitsPasted.otp.flatten.length = 6
      ∧ (handleSubmit (fun _ => VerifyResponse.rejected (some "Invalid OTP. 2 attempts remaining"))
            sixDigitsPasted).otp = [[], [], [], [], [], []]
      ∧ (handleSubmit (fun _ => VerifyResponse.rejected (some "Invalid OTP. 2 attempts remaining"))
            sixDigitsPasted).error = "Invalid OTP. 2 attempts remaining" :=
  have h1 : sixDigitsPasted.otp.length = 6 := by decide
  have h2 : sixDigitsPasted.otp.flatten.length = 6 := by decide
  have t := handleSubmit_failure_clears_and_reports sixDigitsPasted
    (some "Invalid OTP. 2 attempts remaining")
    (fun _ => VerifyResponse.rejected (some "Invalid OTP. 2 attempts remaining")) h1 h2 rfl
  ⟨h1, h2, t.2.1, t.2.2.2.1 _ rfl (by decide)⟩

/-! ## Single slots -/

/-- C9: for a slot index below 6 and six slots, `handleChange` leaves the whole
state, all six slots included, as it was when the value is neither empty nor a
single decimal digit; for an empty value or a single decimal digit, slot
`index` becomes the value and the other five slots keep theirs. -/
theorem handleChange_accepts_empty_or_single_digit (index : Nat) (value : JSString)
    (s : State) (hi : index < 6) (h6 : s.otp.length = 6) :
    (¬ (value = [] ∨ ∃ c, isDigit c = true ∧ value = [c]) → handleChange index value s = s)
      ∧ ((value = [] ∨ ∃ c, isDigit c = true ∧ value = [c]) →
          (handleChange index value s).otp.length = 6
            ∧ (handleChange index value s).otp[index]? = some value
            ∧ ∀ j, j ≠ index → (handleChange index value s).otp[j]? = s.otp[j]?) := by
  constructor
  · intro hrej
    have hne : value ≠ [] := fun h => hrej (Or.inl h)
    have ht : testSingleDigit value = false := by
      cases hb : testSingleDigit value with
      | false => rfl
      | true => exact absurd (Or.inr ((testSingleDigit_iff value).1 hb)) hrej
    have hcond : (!value.isEmpty && !testSingleDigit value) = true := by
      cases value with
      | nil => exact absurd rfl hne
      | cons a t => simp [ht]
    unfold handleChange
    rw [if_pos hcond]
  · intro hacc
    have hcond : ¬ (!value.isEmpty && !testSingleDigit value) = true := by
      rcases hacc with rfl | hc
      · simp
      · simp [(testSingleDigit_iff value).2 hc]
    have hotp : (handleChange index value s).otp = s.otp.set index value := by
      unfold handleChange
      rw [if_neg hcond]
      dsimp only
      split
      · rw [focusInput_otp]
      · rfl
    rw [hotp]
    refine ⟨by rw [List.length_set]; exact h6, ?_, fun j hj => ?_⟩
    · rw [List.getElem?_set_self (by omega)]
    · rw [List.getElem?_set_ne (Ne.symm hj)]

/-- C9, witness: typing the digit 7 into slot 2 of six empty slots, and typing
the letter x there. -/
theorem handleChange_accepts_empty_or_single_digit_witness :
    (2 < 6 ∧ (initialState sampleData).otp.length = 6)
      ∧ (handleChange 2 ['7'] (initialState sampleData)).otp[2]? = some ['7']
      ∧ handleChange 2 ['x'] (initialState sampleData) = initialState sampleData :=
  have t7 := handleChange_accepts_empty_or_single_digit 2 ['7'] (initialState sampleData)
    (by decide) rfl
  have tx := handleChange_accepts_empty_or_single_digit 2 ['x'] (initialState sampleData)
    (by decide) rfl
  ⟨⟨by decide, rfl⟩, (t7.2 (Or.inr ⟨'7', by decide, rfl⟩)).2.1,
    tx.1 (by
      rintro (h | ⟨c, hc, he⟩)
      · exact List.noConfusion h
      · cases he
        exact absurd hc (by decide))⟩

/-- C10: for a slot index below 6 and six slots, `handleKeyDown` changes nothing
but the focus. Backspace on an empty slot `index > 0` puts the focus on slot
`index - 1`, whose value stays; ArrowLeft at `index > 0` puts it on slot
`index - 1`; ArrowRight at `index < 5` puts it on slot `index + 1`; in every
other case the state, focus included, is what it was. -/
theorem handleKeyDown_only_moves_focus (index : Nat) (key : String) (s : State)
    (hi : index < 6) (h6 : s.otp.length = 6) :
    handleKeyDown index key s = { s with focus := (handleKeyDown index key s).focus }
      ∧ (handleKeyDown index key s).otp = s.otp
      ∧ (key = "Backspace" → s.otp[index]? = some [] → 0 < index →
          (handleKeyDown index key s).focus = some (index - 1)
            ∧ (handleKeyDown index key s).otp[index - 1]? = s.otp[index - 1]?)
      ∧ (key = "ArrowLeft" → 0 < index →
          (handleKeyDown index key s).focus = some (index - 1))
      ∧ (key = "ArrowRight" → index < 5 →
          (handleKeyDown index key s).focus = some (index + 1))
      ∧ (¬ (key = "Backspace" ∧ s.otp[index]? = some [] ∧ 0 < index) →
          ¬ (key = "ArrowLeft" ∧ 0 < index) → ¬ (key = "ArrowRight" ∧ index < 5) →
          handleKeyDown index key s = s) := by
  have hfocus : ∀ i, i < 6 → focusInput s i s = { s with focus := some i } := by
    intro i h
    unfold focusInput
    rw [if_pos (by omega)]
  have hslot : ((s.otp.getD index []).isEmpty = true) ↔ s.otp[index]? = some [] := by
    have hlt : index < s.otp.length := by omega
    rw [List.getD_eq_getElem?_getD, List.getElem?_eq_getElem hlt]
    simp [List.isEmpty_iff]
  refine ⟨?_, handleKeyDown_otp index key s, ?_, ?_, ?_, ?_⟩
  · unfold handleKeyDown
    repeat' split
    all_goals first | rfl | (unfold focusInput; split <;> rfl)
  · intro hk he hpos
    have hb : ((s.otp.getD index []).isEmpty && decide (index > 0)) = true := by
      rw [Bool.and_eq_true]
      exact ⟨hslot.2 he, decide_eq_true hpos⟩
    have hres : handleKeyDown index key s = { s with focus := some (index - 1) } := by
      unfold handleKeyDown
      rw [if_pos hk, if_pos hb, hfocus _ (by omega)]
    rw [hres]
    exact ⟨rfl, rfl⟩
  · intro hk hpos
    have hnb : ¬ key = "Backspace" := by rw [hk]; decide
    have hres : handleKeyDown index key s = { s with focus := some (index - 1) } := by
      unfold handleKeyDown
      rw [if_neg hnb, if_pos ⟨hk, hpos⟩, hfocus _ (by omega)]
    rw [hres]
  · intro hk hlt
    have hnb : ¬ key = "Backspace" := by rw [hk]; decide
    have hnl : ¬ (key = "ArrowLeft" ∧ index > 0) := by rw [hk]; intro h; exact absurd h.1 (by decide)
    have hres : handleKeyDown index key s = { s with focus := some (index + 1) } := by
      unfold handleKeyDown
      rw [if_neg hnb, if_neg hnl, if_pos ⟨hk, hlt⟩, hfocus _ (by omega)]
    rw [hres]
  · intro h1 h2 h3
    unfold handleKeyDown
    by_cases hk : key = "Backspace"
    · have hb : ¬ ((s.otp.getD index []).isEmpty && decide (index > 0)) = true := by
        intro hb
        simp only [Bool.and_eq_true, decide_eq_true_eq] at hb
        exact h1 ⟨hk, hslot.1 hb.1, hb.2⟩
      rw [if_pos hk, if_neg hb]
    · rw [if_neg hk, if_neg h2, if_neg h3]

/-- C10, witness: Backspace on the empty slot 3 after "123" was pasted moves the
focus to slot 2, which keeps its digit. -/
theorem handleKeyDown_only_moves_focus_witness :
    (3 < 6 ∧ (handlePaste "123".toList (initialState sampleData)).otp.length = 6)
      ∧ (handleKeyDown 3 "Backspace" (handlePaste "123".toList (initialState sampleData))).focus
          = some 2
      ∧ (handleKeyDown 3 "Backspace" (handlePaste "123".toList (initialState sampleData))).otp
          = [['1'], ['2'], ['3'], [], [], []] :=
  have h6 : (handlePaste "123".toList (initialState sampleData)).otp.length = 6 := by decide
  have t := handleKeyDown_only_moves_focus 3 "Backspace"
    (handlePaste "123".toList (initialState sampleData)) (by decide) h6
  ⟨⟨by decide, h6⟩, (t.2.2.1 rfl (by decide) (by decide)).1, by rw [t.2.1]; decide⟩

/-! ## What a resend leaves alone -/

/-- C12: a successful resend changes the id and the expiry of the held
descriptor and nothing else of it: the echoed code `otp_code` and every other
field keep the value they had for the superseded challenge, whatever the
response carries for them, and so does the code the view displays. -/
theorem handleResend_success_keeps_other_fields (s : State) (data : OtpData)
    (respond : ResendRequest → ResendResponse)
    (hr : respond { otp_id := s.otpData.otp_id } = ResendResponse.resolved true data) :
    (handleResend respond s).otpData
        = { s.otpData with otp_id := data.otp_id, expires_at := data.expires_at }
      ∧ (handleResend respond s).otpData.otp_code = s.otpData.otp_code
      ∧ (handleResend respond s).otpData.others = s.otpData.others
      ∧ displayedOtpCode (handleResend respond s) = displayedOtpCode s := by
  have hw : (handleResend respond s).otpData
      = { s.otpData with otp_id := data.otp_id, expires_at := data.expires_at } := by
    unfold handleResend handleResendStart
    simp only [hr]
    unfold handleResendSettle focusInput
    simp only [if_true]
    split <;> rfl
  refine ⟨hw, by rw [hw], by rw [hw], ?_⟩
  unfold displayedOtpCode
  rw [hw]

/-- C12, witness: in development mode the response of the resend echoes the new
code "654321", and the view goes on displaying "123456". -/
theorem handleResend_success_keeps_other_fields_witness :
    devResentData.otp_code = some "654321"
      ∧ (handleResend (fun _ => ResendResponse.resolved true devResentData)
            (initialState devData)).otpData.otp_id = "B"
      ∧ (handleResend (fun _ => ResendResponse.resolved true devResentData)
            (initialState devData)).otpData.otp_code = some "123456"
      ∧ displayedOtpCode (handleResend (fun _ => ResendResponse.resolved true devResentData)
            (initialState devData)) = some "123456" :=
  have t := handleResend_success_keeps_other_fields (initialState devData) devResentData
    (fun _ => ResendResponse.resolved true devResentData) rfl
  ⟨rfl, by rw [t.1]; rfl, t.2.1, by rw [t.2.2.2]; decide⟩

end VerifyOTP

namespace RequestOTP

open VerifyOTP (JSString isDigit)

/-! ## Validation of the phone number -/

theorem matchDigits_iff (text : JSString) :
    matchDigits text = true ↔
      (∀ c ∈ text, isDigit c = true) ∧ 10 ≤ text.length ∧ text.length ≤ 15 := by
  simp [matchDigits, and_assoc]

theorem phonePattern_iff (value : JSString) :
    phonePattern value = true ↔
      ∃ ds, (value = ds ∨ value = '+' :: ds)
        ∧ (∀ c ∈ ds, isDigit c = true) ∧ 10 ≤ ds.length ∧ ds.length ≤ 15 := by
  unfold phonePattern
  rw [Bool.or_eq_true, matchDigits_iff]
  constructor
  · rintro (h | h)
    · exact ⟨value, Or.inl rfl, h⟩
    · split at h
      · next rest => exact ⟨rest, Or.inr rfl, (matchDigits_iff rest).1 h⟩
      · exact absurd h (by decide)
  · rintro ⟨ds, hv | hv, hds⟩
    · left; rw [hv]; exact hds
    · right; rw [hv]; exact (matchDigits_iff ds).2 hds

theorem phoneInputValid_iff (value : JSString) :
    phoneInputValid value = true ↔ phonePattern value = true := by
  unfold phoneInputValid
  rw [Bool.and_eq_true]
  refine ⟨fun h => h.2, fun h => ⟨?_, h⟩⟩
  obtain ⟨ds, hv, _, hlen, _⟩ := (phonePattern_iff value).1 h
  rcases hv with rfl | rfl
  · cases value with
    | nil => simp at hlen
    | cons a t => rfl
  · rfl

theorem submitForm_phone_invalid (emailTypeValid : JSString → Bool) (s : State)
    (hm : s.method = Method.phone) (h : phonePattern s.formData.phone = false) :
    submitForm emailTypeValid s = (s, none) := by
  have hv : formValid emailTypeValid s = false := by
    unfold formValid
    rw [hm]
    cases hb : phoneInputValid s.formData.phone with
    | false => rfl
    | true =>
      rw [(phoneInputValid_iff _).1 hb] at h
      exact absurd h (by decide)
  unfold submitForm
  rw [hv]
  split <;> rfl

theorem submitForm_phone_valid (emailTypeValid : JSString → Bool) (s : State)
    (hm : s.method = Method.phone) (hl : s.loading = false)
    (h : phonePattern s.formData.phone = true) :
    submitForm emailTypeValid s
      = ({ s with error := "", loading := true }, some (Payload.phone s.formData.phone)) := by
  have hv : formValid emailTypeValid s = true := by
    unfold formValid
    rw [hm]
    exact (phoneInputValid_iff _).2 h
  unfold submitForm handleSubmitStart
  rw [hv, hl, hm]
  rfl

/-- C11, counterexample: "9876543210" has no leading '+', and the phone form
sends a create request for it. -/
theorem phone_without_plus_reaches_create_request :
    "9876543210".toList.head? ≠ some '+'
      ∧ (submitForm (fun _ => true) (phoneForm "9876543210".toList)).2
          = some (Payload.phone "9876543210".toList) := by
  decide

/-- C11, as amended: the phone form sends a create request only for a phone
string made of an optional leading '+' followed by 10 to 15 decimal digits, and
sends one for every such string when no request is under way. Every other
string is rejected before a request is sent and the form is left as it was: in
particular a string with a character that is neither a decimal digit nor '+',
and a string with fewer than 10 or more than 15 decimal digits. -/
theorem phone_form_sends_iff_optional_plus_and_digits (emailTypeValid : JSString → Bool)
    (s : State) (hm : s.method = Method.phone) :
    ((submitForm emailTypeValid s).2 ≠ none →
        ∃ ds, (s.formData.phone = ds ∨ s.formData.phone = '+' :: ds)
          ∧ (∀ c ∈ ds, isDigit c = true) ∧ 10 ≤ ds.length ∧ ds.length ≤ 15)
      ∧ (¬ (∃ ds, (s.formData.phone = ds ∨ s.formData.phone = '+' :: ds)
            ∧ (∀ c ∈ ds, isDigit c = true) ∧ 10 ≤ ds.length ∧ ds.length ≤ 15) →
          submitForm emailTypeValid s = (s, none))
      ∧ (s.loading = false →
          (∃ ds, (s.formData.phone = ds ∨ s.formData.phone = '+' :: ds)
            ∧ (∀ c ∈ ds, isDigit c = true) ∧ 10 ≤ ds.length ∧ ds.length ≤ 15) →
          (submitForm emailTypeValid s).2 = some (Payload.phone s.formData.phone))
      ∧ ((∃ c ∈ s.formData.phone, isDigit c = false ∧ c ≠ '+') →
          submitForm emailTypeValid s = (s, none))
      ∧ ((s.formData.phone.filter isDigit).length < 10
            ∨ 15 < (s.formData.phone.filter isDigit).length →
          submitForm emailTypeValid s = (s, none)) := by
  have hrej : ¬ (∃ ds, (s.formData.phone = ds ∨ s.formData.phone = '+' :: ds)
      ∧ (∀ c ∈ ds, isDigit c = true) ∧ 10 ≤ ds.length ∧ ds.length ≤ 15) →
      submitForm emailTypeValid s = (s, none) := by
    intro hn
    apply submitForm_phone_invalid emailTypeValid s hm
    cases hb : phonePattern s.formData.phone with
    | false => rfl
    | true => exact absurd ((phonePattern_iff _).1 hb) hn
  refine ⟨fun hsent => ?_, hrej, fun hl hshape => ?_, fun hc => hrej ?_, fun hcount => hrej ?_⟩
  · by_contra hn
    rw [hrej hn] at hsent
    exact hsent rfl
  · rw [submitForm_phone_valid emailTypeValid s hm hl ((phonePattern_iff _).2 hshape)]
  · rintro ⟨ds, hv, hds, _, _⟩
    obtain ⟨c, hmem, hnd, hnp⟩ := hc
    have hcd : c ∈ ds := by
      rcases hv with hv | hv
      · rw [hv] at hmem; exact hmem
      · rw [hv] at hmem
        rcases List.mem_cons.1 hmem with h | h
        · exact absurd h hnp
        · exact h
    rw [hds c hcd] at hnd
    exact absurd hnd (by decide)
  · rintro ⟨ds, hv, hds, h10, h15⟩
    have hself : ds.filter isDigit = ds := List.filter_eq_self.2 hds
    have hf : s.formData.phone.filter isDigit = ds := by
      rcases hv with hv | hv
      · rw [hv]; exact hself
      · rw [hv, List.filter_cons_of_neg (by decide)]; exact hself
    rw [hf] at hcount
    omega

/-- C11, witness: the placeholder of the input, "+91 98765 43210", holds spaces
and is rejected; "+919876543210" is sent. -/
theorem phone_form_sends_iff_optional_plus_and_digits_witness :
    (phoneForm "+91 98765 43210".toList).method = Method.phone
      ∧ submitForm (fun _ => true) (phoneForm "+91 98765 43210".toList)
          = (phoneForm "+91 98765 43210".toList, none)
      ∧ (submitForm (fun _ => true) (phoneForm "+919876543210".toList)).2
          = some (Payload.phone "+919876543210".toList) :=
  have t := phone_form_sends_iff_optional_plus_and_digits (fun _ => true)
    (phoneForm "+91 98765 43210".toList) rfl
  ⟨rfl, t.2.2.2.1 ⟨' ', by decide, by decide, by decide⟩, by decide⟩

end RequestOTP
